import Mathlib

/-!
Shallow embedding of `src/server.py` (YouTube MCP server): configuration
validation, pydantic request models with field validators, the shared HTTP
transport helper, and the five tool bodies.  Remote HTTP responses and the
transcript-extraction collaborator are modelled as explicit mock functions
passed to each tool, so that every tool is a pure function of its inputs and
of the mocked remote behaviour.
-/

namespace YoutubeMCP

/-- JSON values as produced by parsing a response body.  Numbers are modelled
as integers only: no claim involves fractional JSON numbers. -/
inductive Json where
  | null : Json
  | str : String → Json
  | num : Int → Json
  | bool : Bool → Json
  | arr : List Json → Json
  | obj : List (String × Json) → Json

/-- Python `d[k]` on a parsed JSON value: returns the value when `d` is an
object containing `k`; a missing key raises `KeyError`, whose `str()` is the
repr of the key (`'items'`); subscripting a non-object by a string raises
`TypeError` (its exact Python message is not reproduced — no claim reads it). -/
def Json.index (j : Json) (k : String) : Except String Json :=
  match j with
  | .obj kvs =>
    match kvs.lookup k with
    | some v => .ok v
    | none => .error ("'" ++ k ++ "'")
  | _ => .error "value is not subscriptable by string"

/-- Python `d.get(k, default)`: the default when the key is absent; calling
`.get` on a non-object raises `AttributeError` (message not reproduced). -/
def Json.getD (j : Json) (k : String) (d : Json) : Except String Json :=
  match j with
  | .obj kvs => .ok ((kvs.lookup k).getD d)
  | _ => .error "value has no attribute get"

/-- Python `for item in v` where the loop body subscripts `item` by a string:
iterating a JSON array yields its elements; every non-array value makes the
loop (or the first subscript inside it) raise, so it is modelled as an error. -/
def Json.asList (j : Json) : Except String (List Json) :=
  match j with
  | .arr l => .ok l
  | _ => .error "value is not iterable as a list"

/-- Python `list[0]`: `IndexError` on an empty list, `TypeError` otherwise. -/
def Json.at0 (j : Json) : Except String Json :=
  match j with
  | .arr (x :: _) => .ok x
  | .arr [] => .error "list index out of range"
  | _ => .error "value is not subscriptable by integer"

/-- Python truthiness of a parsed JSON value (`if not data[...]`). -/
def Json.pyFalsy : Json → Bool
  | .null => true
  | .str s => s = ""
  | .num n => n = 0
  | .bool b => !b
  | .arr l => l.isEmpty
  | .obj kvs => kvs.isEmpty

/-- Python truthiness of `os.getenv` output: `None` and `""` are falsy. -/
def pyTruthyEnv : Option String → Bool
  | none => false
  | some s => s ≠ ""

/-- `Config.validate`: collect every missing required environment variable
into `errors`, then raise a single `ValueError` listing them all.  The input
is the value of `os.getenv("YOUTUBE_API_KEY")`. -/
def Config.validate (yOUTUBE_API_KEY : Option String) : Except String Unit :=
  let errors : List String :=
    if pyTruthyEnv yOUTUBE_API_KEY then [] else ["YOUTUBE_API_KEY is required"]
  if errors.isEmpty then .ok ()
  else
    .error ("Missing required environment variables:\n"
      ++ String.intercalate "\n" (errors.map (fun e => "  - " ++ e))
      ++ "\n\nSee module docstring for configuration details.")

/-- The module body: `Config.validate()` runs on import, before `FastMCP` is
created and any `@mcp.tool()` registration happens; on success the five tools
are registered.  Returns the list of served tool names. -/
def serverStartup (env : Option String) : Except String (List String) :=
  match Config.validate env with
  | .error e => .error e
  | .ok _ => .ok ["get_youtube_transcript", "youtube_search_videos",
      "youtube_get_video_details", "youtube_get_comments",
      "youtube_list_channel_videos"]

/-- ASCII whitespace stripped by Python `str.strip()` (Python additionally
strips non-ASCII Unicode whitespace, which no claim exercises). -/
def pyIsSpace (c : Char) : Bool :=
  c = ' ' || c = '\t' || c = '\n' || c = '\x0d' || c = '\x0b' || c = '\x0c'

/-- Python `s.strip()`. -/
def pyStrip (s : String) : String :=
  ⟨((s.data.dropWhile pyIsSpace).reverse.dropWhile pyIsSpace).reverse⟩

/-- Shared body of the three identical `validate_video_id` field validators
(`TranscriptRequest`, `VideoDetailsRequest`, `CommentsRequest`):
`if not v or len(v) != 11: raise ValueError(...)`. -/
def validate_video_id (v : String) : Except String String :=
  if v = "" || v.length ≠ 11 then .error "video_id must be exactly 11 characters"
  else .ok v

/-- `SearchRequest.validate_query`: `if not v or not v.strip()` raises,
otherwise the stripped query is returned. -/
def validate_query (v : String) : Except String String :=
  if v = "" || pyStrip v = "" then .error "query cannot be empty"
  else .ok (pyStrip v)

structure TranscriptRequest where
  video_id : String

structure SearchRequest where
  query : String
  max_results : Int

structure VideoDetailsRequest where
  video_id : String

structure CommentsRequest where
  video_id : String
  max_results : Int

/-- Pydantic construction of `TranscriptRequest` from tool-call arguments.
Field errors are collected into a `ValidationError` raised by the host before
the tool body runs; the error is modelled as the list of per-field reasons. -/
def TranscriptRequest.build (video_id : String) : Except (List String) TranscriptRequest :=
  match validate_video_id video_id with
  | .ok v => .ok ⟨v⟩
  | .error e => .error [e]

/-- Pydantic construction of `VideoDetailsRequest`. -/
def VideoDetailsRequest.build (video_id : String) : Except (List String) VideoDetailsRequest :=
  match validate_video_id video_id with
  | .ok v => .ok ⟨v⟩
  | .error e => .error [e]

/-- Pydantic construction of `SearchRequest`: the `query` field validator and
the `ge=1, le=50` bounds on `max_results`; all field errors are collected
(query first, in field order) before the `ValidationError` is raised. -/
def SearchRequest.build (query : String) (max_results : Int) : Except (List String) SearchRequest :=
  let errs : List String :=
    (match validate_query query with | .ok _ => [] | .error e => [e])
    ++ (if max_results < 1 then ["Input should be greater than or equal to 1"]
        else if 50 < max_results then ["Input should be less than or equal to 50"]
        else [])
  if errs.isEmpty then .ok ⟨pyStrip query, max_results⟩ else .error errs

/-- Pydantic construction of `CommentsRequest`: `validate_video_id` plus the
`ge=1, le=100` bounds on `max_results`, errors collected in field order. -/
def CommentsRequest.build (video_id : String) (max_results : Int) : Except (List String) CommentsRequest :=
  let errs : List String :=
    (match validate_video_id video_id with | .ok _ => [] | .error e => [e])
    ++ (if max_results < 1 then ["Input should be greater than or equal to 1"]
        else if 100 < max_results then ["Input should be less than or equal to 100"]
        else [])
  if errs.isEmpty then .ok ⟨video_id, max_results⟩ else .error errs

/-- One outbound HTTP GET issued through `httpx`: absolute URL plus the query
parameters actually sent (including the appended `key`). -/
structure OutboundRequest where
  url : String
  params : List (String × String)

/-- A mocked remote HTTP response: status code, raw body text, and the parsed
JSON body (`response.json()`; bodies that fail to parse are not modelled —
no claim exercises them). -/
structure HttpResponse where
  status_code : Nat
  text : String
  jsonBody : Json

/-- `_make_api_request`: append the credential as the `key` parameter, issue
the GET, raise `ValueError` with the status code and raw body on non-200,
return the parsed JSON body otherwise.  `http` is the mocked remote; the
request actually sent is returned alongside the result. -/
def make_api_request (key : String) (http : OutboundRequest → HttpResponse)
    (url : String) (params : List (String × String)) :
    Except String Json × OutboundRequest :=
  let sent : OutboundRequest := ⟨url, params ++ [("key", key)]⟩
  let response := http sent
  (if response.status_code ≠ 200 then
      .error ("API request failed: " ++ toString response.status_code
        ++ " - " ++ response.text)
    else .ok response.jsonBody,
   sent)

/-- `_handle_api_error`: format any caught exception's message. -/
def handle_api_error (e : String) : String := "API Error: " ++ e

/-- The `try/except Exception as e: raise ValueError(_handle_api_error(e))`
pattern wrapped around every tool body. -/
def wrapApiError {α : Type} : Except String α → Except String α
  | .ok a => .ok a
  | .error e => .error (handle_api_error e)

/-- `TranscriptResponse`: the joined transcript plus title and description
passed through verbatim from the remote snippet (pydantic's `Optional[str]`
response-side type check is not modelled — no claim reads it). -/
structure TranscriptResponse where
  transcript : String
  video_title : Json
  video_description : Json

/-- One entry of `SearchResponse.videos`: the dict
`{"video_id": ..., "title": ..., "description": ...}`. -/
structure VideoEntry where
  video_id : Json
  title : Json
  description : Json

structure SearchResponse where
  videos : List VideoEntry

structure VideoDetailsResponse where
  video_id : String
  title : Json
  description : Json
  published_at : Json

structure CommentsResponse where
  comments : List Json

/-- The comprehension `[item['text'] for item in transcript_list]`: every
lookup is evaluated, in order, before `join` runs. -/
def extractTexts : List Json → Except String (List Json)
  | [] => .ok []
  | item :: rest =>
    match item.index "text" with
    | .error e => .error e
    | .ok t =>
      match extractTexts rest with
      | .error e => .error e
      | .ok ts => .ok (t :: ts)

/-- `" ".join(...)` requires every element to be a string (checked in order;
a non-string raises `TypeError`). -/
def joinCheck : List Json → Except String (List String)
  | [] => .ok []
  | j :: rest =>
    match j with
    | .str s =>
      match joinCheck rest with
      | .error e => .error e
      | .ok ss => .ok (s :: ss)
    | _ => .error "sequence item: expected str instance"

/-- `transcript = " ".join([item['text'] for item in transcript_list])`. -/
def buildTranscript (transcript_list : List Json) : Except String String :=
  match extractTexts transcript_list with
  | .error e => .error e
  | .ok texts =>
    match joinCheck texts with
    | .error e => .error e
    | .ok strs => .ok (String.intercalate " " strs)

/-- `get_youtube_transcript` tool body.  `collab` mocks
`YouTubeTranscriptApi.get_transcript`; `http` mocks the remote API.  The
second component lists the HTTP requests issued. -/
def get_youtube_transcript (key : String) (collab : String → Except String (List Json))
    (http : OutboundRequest → HttpResponse) (request : TranscriptRequest) :
    Except String TranscriptResponse × List OutboundRequest :=
  let video_id := request.video_id
  match wrapApiError (match collab video_id with
    | .error e => .error e
    | .ok transcript_list => buildTranscript transcript_list) with
  | .error e => (.error e, [])
  | .ok transcript =>
    let url := "https://www.googleapis.com/youtube/v3/videos"
    let params := [("id", video_id), ("part", "snippet")]
    let (data?, sent) := make_api_request key http url params
    let metadata : Except String (Json × Json) :=
      match data? with
      | .error e => .error e
      | .ok data =>
        match data.index "items" with
        | .error e => .error e
        | .ok items =>
          if items.pyFalsy then .error "Video not found"
          else
            match items.at0 with
            | .error e => .error e
            | .ok first =>
              match first.index "snippet" with
              | .error e => .error e
              | .ok snippet =>
                match snippet.index "title" with
                | .error e => .error e
                | .ok video_title =>
                  match snippet.index "description" with
                  | .error e => .error e
                  | .ok video_description => .ok (video_title, video_description)
    match wrapApiError metadata with
    | .error e => (.error e, [sent])
    | .ok (video_title, video_description) =>
      (.ok ⟨transcript, video_title, video_description⟩, [sent])

/-- One iteration of the `for item in data.get('items', [])` loop of the two
search-shaped tools: `item['id']['videoId']`, `item['snippet']['title']`,
`item['snippet']['description']`, evaluated in that order. -/
def projectSearchItem (item : Json) : Except String VideoEntry :=
  match item.index "id" with
  | .error e => .error e
  | .ok idv =>
    match idv.index "videoId" with
    | .error e => .error e
    | .ok video_id =>
      match item.index "snippet" with
      | .error e => .error e
      | .ok sn1 =>
        match sn1.index "title" with
        | .error e => .error e
        | .ok title =>
          match item.index "snippet" with
          | .error e => .error e
          | .ok sn2 =>
            match sn2.index "description" with
            | .error e => .error e
            | .ok description => .ok ⟨video_id, title, description⟩

/-- The whole loop: items processed in order, stopping at the first failure. -/
def projectSearchItems : List Json → Except String (List VideoEntry)
  | [] => .ok []
  | item :: rest =>
    match projectSearchItem item with
    | .error e => .error e
    | .ok v =>
      match projectSearchItems rest with
      | .error e => .error e
      | .ok videos => .ok (v :: videos)

/-- `youtube_search_videos` tool body. -/
def youtube_search_videos (key : String) (http : OutboundRequest → HttpResponse)
    (request : SearchRequest) : Except String SearchResponse × List OutboundRequest :=
  let url := "https://www.googleapis.com/youtube/v3/search"
  let params := [("q", request.query), ("part", "snippet"), ("type", "video"),
    ("maxResults", toString request.max_results)]
  let (data?, sent) := make_api_request key http url params
  let body : Except String SearchResponse :=
    match data? with
    | .error e => .error e
    | .ok data =>
      match data.getD "items" (.arr []) with
      | .error e => .error e
      | .ok itemsVal =>
        match itemsVal.asList with
        | .error e => .error e
        | .ok items =>
          match projectSearchItems items with
          | .error e => .error e
          | .ok videos => .ok ⟨videos⟩
  (wrapApiError body, [sent])

/-- `youtube_list_channel_videos` tool body: textually the same logic as
`youtube_search_videos` — the query is forwarded as a generic search term
with no channel-scoping filter. -/
def youtube_list_channel_videos (key : String) (http : OutboundRequest → HttpResponse)
    (request : SearchRequest) : Except String SearchResponse × List OutboundRequest :=
  let url := "https://www.googleapis.com/youtube/v3/search"
  let params := [("q", request.query), ("part", "snippet"), ("type", "video"),
    ("maxResults", toString request.max_results)]
  let (data?, sent) := make_api_request key http url params
  let body : Except String SearchResponse :=
    match data? with
    | .error e => .error e
    | .ok data =>
      match data.getD "items" (.arr []) with
      | .error e => .error e
      | .ok itemsVal =>
        match itemsVal.asList with
        | .error e => .error e
        | .ok items =>
          match projectSearchItems items with
          | .error e => .error e
          | .ok videos => .ok ⟨videos⟩
  (wrapApiError body, [sent])

/-- `youtube_get_video_details` tool body. -/
def youtube_get_video_details (key : String) (http : OutboundRequest → HttpResponse)
    (request : VideoDetailsRequest) :
    Except String VideoDetailsResponse × List OutboundRequest :=
  let url := "https://www.googleapis.com/youtube/v3/videos"
  let params := [("id", request.video_id), ("part", "snippet")]
  let (data?, sent) := make_api_request key http url params
  let body : Except String VideoDetailsResponse :=
    match data? with
    | .error e => .error e
    | .ok data =>
      match data.index "items" with
      | .error e => .error e
      | .ok items =>
        if items.pyFalsy then .error "Video not found"
        else
          match items.at0 with
          | .error e => .error e
          | .ok first =>
            match first.index "snippet" with
            | .error e => .error e
            | .ok snippet =>
              match snippet.index "title" with
              | .error e => .error e
              | .ok title =>
                match snippet.index "description" with
                | .error e => .error e
                | .ok description =>
                  match snippet.index "publishedAt" with
                  | .error e => .error e
                  | .ok published_at =>
                    .ok ⟨request.video_id, title, description, published_at⟩
  (wrapApiError body, [sent])

/-- One iteration of the comments loop:
`item['snippet']['topLevelComment']['snippet']['textDisplay']`. -/
def projectCommentItem (item : Json) : Except String Json :=
  match item.index "snippet" with
  | .error e => .error e
  | .ok sn =>
    match sn.index "topLevelComment" with
    | .error e => .error e
    | .ok tlc =>
      match tlc.index "snippet" with
      | .error e => .error e
      | .ok sn2 =>
        match sn2.index "textDisplay" with
        | .error e => .error e
        | .ok comment_text => .ok comment_text

/-- The `for item in data.get('items', [])` loop of the comments tool. -/
def projectCommentItems : List Json → Except String (List Json)
  | [] => .ok []
  | item :: rest =>
    match projectCommentItem item with
    | .error e => .error e
    | .ok comment_text =>
      match projectCommentItems rest with
      | .error e => .error e
      | .ok comments => .ok (comment_text :: comments)

/-- `youtube_get_comments` tool body. -/
def youtube_get_comments (key : String) (http : OutboundRequest → HttpResponse)
    (request : CommentsRequest) : Except String CommentsResponse × List OutboundRequest :=
  let url := "https://www.googleapis.com/youtube/v3/commentThreads"
  let params := [("videoId", request.video_id), ("part", "snippet"),
    ("maxResults", toString request.max_results)]
  let (data?, sent) := make_api_request key http url params
  let body : Except String CommentsResponse :=
    match data? with
    | .error e => .error e
    | .ok data =>
      match data.getD "items" (.arr []) with
      | .error e => .error e
      | .ok itemsVal =>
        match itemsVal.asList with
        | .error e => .error e
        | .ok items =>
          match projectCommentItems items with
          | .error e => .error e
          | .ok comments => .ok ⟨comments⟩
  (wrapApiError body, [sent])

/-- How a failed tool invocation surfaces to the host: a pydantic
`ValidationError` raised while constructing the request model (before the
tool body runs), or the tool body's `ValueError` carrying one message. -/
inductive ToolFailure where
  | validationError (reasons : List String)
  | apiError (message : String)

/-- One complete tool invocation: outcome, HTTP requests issued, and the
number of transcript-collaborator calls made. -/
structure ToolRun (α : Type) where
  result : Except ToolFailure α
  httpRequests : List OutboundRequest
  collabCalls : Nat

/-- Total number of outbound network calls an invocation issued. -/
def ToolRun.networkCalls {α : Type} (r : ToolRun α) : Nat :=
  r.httpRequests.length + r.collabCalls

/-- Full invocation of `get_youtube_transcript`: host-side request-model
construction, then the tool body. -/
def get_youtube_transcript_run (key : String) (collab : String → Except String (List Json))
    (http : OutboundRequest → HttpResponse) (video_id : String) :
    ToolRun TranscriptResponse :=
  match TranscriptRequest.build video_id with
  | .error reasons => ⟨.error (.validationError reasons), [], 0⟩
  | .ok request =>
    let (res, sent) := get_youtube_transcript key collab http request
    ⟨res.mapError .apiError, sent, 1⟩

/-- Full invocation of `youtube_search_videos`. -/
def youtube_search_videos_run (key : String) (http : OutboundRequest → HttpResponse)
    (query : String) (max_results : Int) : ToolRun SearchResponse :=
  match SearchRequest.build query max_results with
  | .error reasons => ⟨.error (.validationError reasons), [], 0⟩
  | .ok request =>
    let (res, sent) := youtube_search_videos key http request
    ⟨res.mapError .apiError, sent, 0⟩

/-- Full invocation of `youtube_list_channel_videos`. -/
def youtube_list_channel_videos_run (key : String) (http : OutboundRequest → HttpResponse)
    (query : String) (max_results : Int) : ToolRun SearchResponse :=
  match SearchRequest.build query max_results with
  | .error reasons => ⟨.error (.validationError reasons), [], 0⟩
  | .ok request =>
    let (res, sent) := youtube_list_channel_videos key http request
    ⟨res.mapError .apiError, sent, 0⟩

/-- Full invocation of `youtube_get_video_details`. -/
def youtube_get_video_details_run (key : String) (http : OutboundRequest → HttpResponse)
    (video_id : String) : ToolRun VideoDetailsResponse :=
  match VideoDetailsRequest.build video_id with
  | .error reasons => ⟨.error (.validationError reasons), [], 0⟩
  | .ok request =>
    let (res, sent) := youtube_get_video_details key http request
    ⟨res.mapError .apiError, sent, 0⟩

/-- Full invocation of `youtube_get_comments`. -/
def youtube_get_comments_run (key : String) (http : OutboundRequest → HttpResponse)
    (video_id : String) (max_results : Int) : ToolRun CommentsResponse :=
  match CommentsRequest.build video_id max_results with
  | .error reasons => ⟨.error (.validationError reasons), [], 0⟩
  | .ok request =>
    let (res, sent) := youtube_get_comments key http request
    ⟨res.mapError .apiError, sent, 0⟩

/-- The exact HTTP request the two search-shaped tools send for a given
validated request. -/
def searchSent (key : String) (request : SearchRequest) : OutboundRequest :=
  ⟨"https://www.googleapis.com/youtube/v3/search",
   [("q", request.query), ("part", "snippet"), ("type", "video"),
    ("maxResults", toString request.max_results), ("key", key)]⟩

/-- The exact HTTP request the details tool and the transcript tool's
metadata step send for a given video id. -/
def videosSent (key : String) (video_id : String) : OutboundRequest :=
  ⟨"https://www.googleapis.com/youtube/v3/videos",
   [("id", video_id), ("part", "snippet"), ("key", key)]⟩

/-- The exact HTTP request the comments tool sends. -/
def commentsSent (key : String) (request : CommentsRequest) : OutboundRequest :=
  ⟨"https://www.googleapis.com/youtube/v3/commentThreads",
   [("videoId", request.video_id), ("part", "snippet"),
    ("maxResults", toString request.max_results), ("key", key)]⟩

/-- A well-formed mocked search item, used by concrete evaluations. -/
def sampleSearchItem : Json :=
  .obj [("id", .obj [("videoId", .str "vid00000001")]),
        ("snippet", .obj [("title", .str "t1"), ("description", .str "d1")])]

/-- The projection of `sampleSearchItem`. -/
def sampleSearchEntry : VideoEntry := ⟨.str "vid00000001", .str "t1", .str "d1"⟩

/-- An invocation that was stopped by request-model validation: it failed
with a pydantic `ValidationError` and issued no outbound call at all. -/
def ToolRun.rejectedBeforeNetwork {α : Type} (r : ToolRun α) : Prop :=
  (∃ reasons, r.result = .error (.validationError reasons)) ∧ r.networkCalls = 0

theorem wrapApiError_eq_error {α : Type} {r : Except String α} {m : String}
    (h : wrapApiError r = .error m) : ∃ e, r = .error e ∧ m = "API Error: " ++ e := by
  cases r with
  | ok a => simp [wrapApiError] at h
  | error e =>
    refine ⟨e, rfl, ?_⟩
    simpa [wrapApiError, handle_api_error] using h.symm

theorem validate_video_id_invalid {v : String} (h : v = "" ∨ v.length ≠ 11) :
    validate_video_id v = .error "video_id must be exactly 11 characters" := by
  unfold validate_video_id
  rcases h with h | h
  · subst h; rfl
  · simp [h]

theorem validate_query_invalid {q : String} (h : q = "" ∨ pyStrip q = "") :
    validate_query q = .error "query cannot be empty" := by
  unfold validate_query
  rcases h with h | h
  · subst h; rfl
  · simp [h]

theorem transcript_build_invalid {v : String} (h : v = "" ∨ v.length ≠ 11) :
    TranscriptRequest.build v = .error ["video_id must be exactly 11 characters"] := by
  simp [TranscriptRequest.build, validate_video_id_invalid h]

theorem details_build_invalid {v : String} (h : v = "" ∨ v.length ≠ 11) :
    VideoDetailsRequest.build v = .error ["video_id must be exactly 11 characters"] := by
  simp [VideoDetailsRequest.build, validate_video_id_invalid h]

theorem comments_build_invalid_id {v : String} (mr : Int)
    (h : v = "" ∨ v.length ≠ 11) :
    ∃ reasons, CommentsRequest.build v mr = .error reasons := by
  unfold CommentsRequest.build
  rw [validate_video_id_invalid h]
  refine ⟨"video_id must be exactly 11 characters"
    :: (if mr < 1 then ["Input should be greater than or equal to 1"]
        else if 100 < mr then ["Input should be less than or equal to 100"]
        else []), ?_⟩
  simp

theorem search_build_invalid_query {q : String} (mr : Int)
    (h : q = "" ∨ pyStrip q = "") :
    ∃ reasons, SearchRequest.build q mr = .error reasons := by
  unfold SearchRequest.build
  rw [validate_query_invalid h]
  refine ⟨"query cannot be empty"
    :: (if mr < 1 then ["Input should be greater than or equal to 1"]
        else if 50 < mr then ["Input should be less than or equal to 50"]
        else []), ?_⟩
  simp

theorem search_build_invalid_limit (q : String) {mr : Int}
    (h : mr < 1 ∨ 50 < mr) :
    ∃ reasons, SearchRequest.build q mr = .error reasons := by
  unfold SearchRequest.build
  rcases h with h | h
  · cases hq : validate_query q <;> simp [hq, h]
  · have h1 : ¬ mr < 1 := by omega
    cases hq : validate_query q <;> simp [hq, h1, h]

theorem comments_build_invalid_limit (v : String) {mr : Int}
    (h : mr < 1 ∨ 100 < mr) :
    ∃ reasons, CommentsRequest.build v mr = .error reasons := by
  unfold CommentsRequest.build
  rcases h with h | h
  · cases hv : validate_video_id v <;> simp [hv, h]
  · have h1 : ¬ mr < 1 := by omega
    cases hv : validate_video_id v <;> simp [hv, h1, h]

theorem projectSearchItems_length {items : List Json} {vs : List VideoEntry}
    (h : projectSearchItems items = .ok vs) : vs.length = items.length := by
  induction items generalizing vs with
  | nil =>
    unfold projectSearchItems at h
    cases h
    rfl
  | cons item rest ih =>
    unfold projectSearchItems at h
    cases hp : projectSearchItem item with
    | error e => rw [hp] at h; cases h
    | ok v =>
      rw [hp] at h
      cases hr : projectSearchItems rest with
      | error e => rw [hr] at h; cases h
      | ok vs' =>
        rw [hr] at h
        cases h
        simp [ih hr]

theorem extractTexts_map (frags : List String) :
    extractTexts (frags.map (fun t => Json.obj [("text", Json.str t)]))
      = .ok (frags.map Json.str) := by
  induction frags with
  | nil => rfl
  | cons t ts ih => simp [extractTexts, Json.index, ih]

theorem joinCheck_strs (frags : List String) :
    joinCheck (frags.map Json.str) = .ok frags := by
  induction frags with
  | nil => rfl
  | cons t ts ih => simp [joinCheck, ih]

theorem buildTranscript_fragments (frags : List String) :
    buildTranscript (frags.map (fun t => Json.obj [("text", Json.str t)]))
      = .ok (String.intercalate " " frags) := by
  simp [buildTranscript, extractTexts_map, joinCheck_strs]

/-- C3: for every credential, mocked remote, and input request, the
channel-listing tool returns exactly what the search tool returns — same
result, same single outbound request to the `search` endpoint with the query
forwarded unscoped — and the full invocation pipelines coincide as well, so
validation and error behaviour are also identical. -/
theorem C3_channel_listing_equals_search (key : String)
    (http : OutboundRequest → HttpResponse) :
    (∀ request : SearchRequest,
        youtube_list_channel_videos key http request
          = youtube_search_videos key http request
      ∧ (youtube_list_channel_videos key http request).2 = [searchSent key request]) ∧
    (∀ (query : String) (max_results : Int),
        youtube_list_channel_videos_run key http query max_results
          = youtube_search_videos_run key http query max_results) :=
  ⟨fun _ => ⟨rfl, rfl⟩, fun _ _ => rfl⟩

/-- C6: the transport helper returns the parsed JSON body on HTTP 200, and on
any non-200 status fails with a message containing the numeric status code
and the raw response body text. -/
theorem C6_transport_contract (key : String) (http : OutboundRequest → HttpResponse)
    (url : String) (params : List (String × String)) :
    ((http ⟨url, params ++ [("key", key)]⟩).status_code = 200 →
      (make_api_request key http url params).1
        = .ok (http ⟨url, params ++ [("key", key)]⟩).jsonBody) ∧
    ((http ⟨url, params ++ [("key", key)]⟩).status_code ≠ 200 →
      ∃ m, (make_api_request key http url params).1 = .error m
        ∧ (∃ a b, m = a ++ toString (http ⟨url, params ++ [("key", key)]⟩).status_code ++ b)
        ∧ (∃ c, m = c ++ (http ⟨url, params ++ [("key", key)]⟩).text)) := by
  constructor
  · intro h200
    simp [make_api_request, h200]
  · intro hne
    refine ⟨"API request failed: "
        ++ toString (http ⟨url, params ++ [("key", key)]⟩).status_code
        ++ " - " ++ (http ⟨url, params ++ [("key", key)]⟩).text,
      by simp [make_api_request, hne],
      ⟨"API request failed: ", " - " ++ (http ⟨url, params ++ [("key", key)]⟩).text,
        by rw [String.append_assoc]⟩,
      ⟨"API request failed: "
        ++ toString (http ⟨url, params ++ [("key", key)]⟩).status_code ++ " - ", rfl⟩⟩

/-- C6 witness: concrete 200 and 404 responses through the helper. -/
theorem C6_transport_contract_witness :
    ((make_api_request "k" (fun _ => ⟨200, "ok", Json.null⟩) "u" []).1 = .ok Json.null) ∧
    (∃ m, (make_api_request "k" (fun _ => ⟨404, "nope", Json.null⟩) "u" []).1 = .error m
      ∧ (∃ a b, m = a ++ toString (404 : Nat) ++ b)
      ∧ (∃ c, m = c ++ "nope")) :=
  ⟨(C6_transport_contract "k" (fun _ => ⟨200, "ok", Json.null⟩) "u" []).1 rfl,
   (C6_transport_contract "k" (fun _ => ⟨404, "nope", Json.null⟩) "u" []).2 (by decide)⟩

/-- C8: when the credential is absent from the environment (unset or empty),
startup fails with one error naming every missing required setting —
`YOUTUBE_API_KEY` is named in the message — and no tool list is ever
produced. -/
theorem C8_missing_credential_fails_startup (env : Option String)
    (h : pyTruthyEnv env = false) :
    serverStartup env = .error ("Missing required environment variables:\n"
        ++ "  - YOUTUBE_API_KEY is required"
        ++ "\n\nSee module docstring for configuration details.") ∧
    (∃ a b, ("Missing required environment variables:\n"
        ++ "  - YOUTUBE_API_KEY is required"
        ++ "\n\nSee module docstring for configuration details.")
      = a ++ "YOUTUBE_API_KEY" ++ b) ∧
    (∀ tools : List String, serverStartup env ≠ .ok tools) := by
  have hmsg : serverStartup env = .error ("Missing required environment variables:\n"
      ++ "  - YOUTUBE_API_KEY is required"
      ++ "\n\nSee module docstring for configuration details.") := by
    simp [serverStartup, Config.validate, h]
    decide
  refine ⟨hmsg, ⟨"Missing required environment variables:\n  - ",
    " is required\n\nSee module docstring for configuration details.", by decide⟩, ?_⟩
  intro tools h2
  rw [hmsg] at h2
  cases h2

/-- C8 witness: the unset-environment case. -/
theorem C8_missing_credential_fails_startup_witness :
    pyTruthyEnv none = false ∧
    (serverStartup none = .error ("Missing required environment variables:\n"
        ++ "  - YOUTUBE_API_KEY is required"
        ++ "\n\nSee module docstring for configuration details.") ∧
    (∃ a b, ("Missing required environment variables:\n"
        ++ "  - YOUTUBE_API_KEY is required"
        ++ "\n\nSee module docstring for configuration details.")
      = a ++ "YOUTUBE_API_KEY" ++ b) ∧
    (∀ tools : List String, serverStartup none ≠ .ok tools)) :=
  ⟨rfl, C8_missing_credential_fails_startup none rfl⟩

/-- C1 counterexample: a wrong-length identifier (`"short"`) on the
transcript tool is rejected by pydantic while the request model is built,
before the tool body and its `try/except` run, so the failure surfaces as a
`ValidationError` — not as the uniform `"API Error: " + original message`
condition the claim asserts for validation failures. -/
theorem C1_counterexample :
    ((get_youtube_transcript_run "k" (fun _ => .ok [])
        (fun _ => ⟨200, "", Json.obj []⟩) "short").result
      = .error (.validationError ["video_id must be exactly 11 characters"])) ∧
    ((get_youtube_transcript_run "k" (fun _ => .ok [])
        (fun _ => ⟨200, "", Json.obj []⟩) "short").result
      ≠ .error (.apiError "API Error: video_id must be exactly 11 characters")) := by
  refine ⟨rfl, ?_⟩
  intro hcontra
  rw [show (get_youtube_transcript_run "k" (fun _ => .ok [])
      (fun _ => ⟨200, "", Json.obj []⟩) "short").result
        = .error (.validationError ["video_id must be exactly 11 characters"]) from rfl]
    at hcontra
  injection hcontra with h1
  exact ToolFailure.noConfusion h1

/-- C1 (amended): every exception raised inside a tool body — transport,
field extraction, collaborator failure, empty-result checks — is re-raised
with the uniform `"API Error: " + original message` format, for all five
tools; parameter-validation failures, however, are raised while the host
constructs the request model, before the tool body, and surface as a
`ValidationError` without that prefix. -/
theorem C1_tool_body_errors_uniformly_wrapped (key : String)
    (collab : String → Except String (List Json)) (http : OutboundRequest → HttpResponse) :
    (∀ (request : TranscriptRequest) (m : String),
      (get_youtube_transcript key collab http request).1 = .error m →
        ∃ m₀, m = "API Error: " ++ m₀) ∧
    (∀ (request : SearchRequest) (m : String),
      (youtube_search_videos key http request).1 = .error m →
        ∃ m₀, m = "API Error: " ++ m₀) ∧
    (∀ (request : SearchRequest) (m : String),
      (youtube_list_channel_videos key http request).1 = .error m →
        ∃ m₀, m = "API Error: " ++ m₀) ∧
    (∀ (request : VideoDetailsRequest) (m : String),
      (youtube_get_video_details key http request).1 = .error m →
        ∃ m₀, m = "API Error: " ++ m₀) ∧
    (∀ (request : CommentsRequest) (m : String),
      (youtube_get_comments key http request).1 = .error m →
        ∃ m₀, m = "API Error: " ++ m₀) ∧
    (∀ video_id : String,
      validate_video_id video_id = .error "video_id must be exactly 11 characters" →
      (get_youtube_transcript_run key collab http video_id).result
        = .error (.validationError ["video_id must be exactly 11 characters"])) := by
  refine ⟨?_, ?_, ?_, ?_, ?_, ?_⟩
  · intro request m h
    simp only [get_youtube_transcript, make_api_request] at h
    split at h
    · rename_i e heq
      obtain ⟨e0, -, hm⟩ := wrapApiError_eq_error heq
      simp only [Prod.fst] at h
      cases h
      exact ⟨e0, hm⟩
    · split at h
      · rename_i e heq2
        obtain ⟨e0, -, hm⟩ := wrapApiError_eq_error heq2
        simp only [Prod.fst] at h
        cases h
        exact ⟨e0, hm⟩
      · simp at h
  · intro request m h
    obtain ⟨e, -, hm⟩ := wrapApiError_eq_error h
    exact ⟨e, hm⟩
  · intro request m h
    obtain ⟨e, -, hm⟩ := wrapApiError_eq_error h
    exact ⟨e, hm⟩
  · intro request m h
    obtain ⟨e, -, hm⟩ := wrapApiError_eq_error h
    exact ⟨e, hm⟩
  · intro request m h
    obtain ⟨e, -, hm⟩ := wrapApiError_eq_error h
    exact ⟨e, hm⟩
  · intro video_id hv
    simp [get_youtube_transcript_run, TranscriptRequest.build, hv]

/-- C1 witness: a concrete transport failure on the search tool surfaces
with the wrapped message. -/
theorem C1_tool_body_errors_uniformly_wrapped_witness :
    ((youtube_search_videos "k" (fun _ => ⟨500, "boom", Json.null⟩)
        ⟨"cats", 5⟩).1 = .error "API Error: API request failed: 500 - boom") ∧
    (∃ m₀, "API Error: API request failed: 500 - boom" = "API Error: " ++ m₀) :=
  ⟨rfl,
   (C1_tool_body_errors_uniformly_wrapped "k" (fun _ => .ok [])
      (fun _ => ⟨500, "boom", Json.null⟩)).2.1 ⟨"cats", 5⟩
      "API Error: API request failed: 500 - boom" rfl⟩

/-- C5: every invalid input — an identifier that is empty or not 11
characters on any identifier-taking tool, a limit outside 1–50 (search) or
1–100 (comments), or an empty/all-whitespace query on the search tools — is
rejected at request-model construction with a `ValidationError`, and zero
outbound calls (HTTP or transcript collaborator) are issued. -/
theorem C5_invalid_inputs_rejected_before_network (key : String)
    (collab : String → Except String (List Json)) (http : OutboundRequest → HttpResponse) :
    (∀ video_id : String, video_id = "" ∨ video_id.length ≠ 11 →
        (get_youtube_transcript_run key collab http video_id).rejectedBeforeNetwork
      ∧ (youtube_get_video_details_run key http video_id).rejectedBeforeNetwork
      ∧ ∀ mr : Int, (youtube_get_comments_run key http video_id mr).rejectedBeforeNetwork) ∧
    (∀ (q : String) (mr : Int), mr < 1 ∨ 50 < mr →
        (youtube_search_videos_run key http q mr).rejectedBeforeNetwork
      ∧ (youtube_list_channel_videos_run key http q mr).rejectedBeforeNetwork) ∧
    (∀ (v : String) (mr : Int), mr < 1 ∨ 100 < mr →
        (youtube_get_comments_run key http v mr).rejectedBeforeNetwork) ∧
    (∀ (q : String) (mr : Int), q = "" ∨ pyStrip q = "" →
        (youtube_search_videos_run key http q mr).rejectedBeforeNetwork
      ∧ (youtube_list_channel_videos_run key http q mr).rejectedBeforeNetwork) := by
  refine ⟨?_, ?_, ?_, ?_⟩
  · intro video_id h
    refine ⟨⟨⟨["video_id must be exactly 11 characters"], ?_⟩, ?_⟩,
      ⟨⟨["video_id must be exactly 11 characters"], ?_⟩, ?_⟩, ?_⟩
    · simp [get_youtube_transcript_run, transcript_build_invalid h]
    · simp [get_youtube_transcript_run, transcript_build_invalid h,
        ToolRun.networkCalls]
    · simp [youtube_get_video_details_run, details_build_invalid h]
    · simp [youtube_get_video_details_run, details_build_invalid h,
        ToolRun.networkCalls]
    · intro mr
      obtain ⟨reasons, hr⟩ := comments_build_invalid_id mr h
      exact ⟨⟨reasons, by simp [youtube_get_comments_run, hr]⟩,
        by simp [youtube_get_comments_run, hr, ToolRun.networkCalls]⟩
  · intro q mr h
    obtain ⟨reasons, hr⟩ := search_build_invalid_limit q h
    exact ⟨⟨⟨reasons, by simp [youtube_search_videos_run, hr]⟩,
        by simp [youtube_search_videos_run, hr, ToolRun.networkCalls]⟩,
      ⟨⟨reasons, by simp [youtube_list_channel_videos_run, hr]⟩,
        by simp [youtube_list_channel_videos_run, hr, ToolRun.networkCalls]⟩⟩
  · intro v mr h
    obtain ⟨reasons, hr⟩ := comments_build_invalid_limit v h
    exact ⟨⟨reasons, by simp [youtube_get_comments_run, hr]⟩,
      by simp [youtube_get_comments_run, hr, ToolRun.networkCalls]⟩
  · intro q mr h
    obtain ⟨reasons, hr⟩ := search_build_invalid_query mr h
    exact ⟨⟨⟨reasons, by simp [youtube_search_videos_run, hr]⟩,
        by simp [youtube_search_videos_run, hr, ToolRun.networkCalls]⟩,
      ⟨⟨reasons, by simp [youtube_list_channel_videos_run, hr]⟩,
        by simp [youtube_list_channel_videos_run, hr, ToolRun.networkCalls]⟩⟩

/-- C5 witness: a 5-character id, a zero limit, a 101 limit, and an
all-whitespace query are each rejected with no outbound call. -/
theorem C5_invalid_inputs_rejected_before_network_witness :
    (get_youtube_transcript_run "k" (fun _ => .ok [])
        (fun _ => ⟨200, "", Json.obj []⟩) "short").rejectedBeforeNetwork ∧
    (youtube_search_videos_run "k" (fun _ => ⟨200, "", Json.obj []⟩)
        "cats" 0).rejectedBeforeNetwork ∧
    (youtube_get_comments_run "k" (fun _ => ⟨200, "", Json.obj []⟩)
        "dQw4w9WgXcQ" 101).rejectedBeforeNetwork ∧
    (youtube_list_channel_videos_run "k" (fun _ => ⟨200, "", Json.obj []⟩)
        " " 5).rejectedBeforeNetwork :=
  ⟨((C5_invalid_inputs_rejected_before_network "k" (fun _ => .ok [])
      (fun _ => ⟨200, "", Json.obj []⟩)).1 "short" (Or.inr (by decide))).1,
   ((C5_invalid_inputs_rejected_before_network "k" (fun _ => .ok [])
      (fun _ => ⟨200, "", Json.obj []⟩)).2.1 "cats" 0 (Or.inl (by decide))).1,
   (C5_invalid_inputs_rejected_before_network "k" (fun _ => .ok [])
      (fun _ => ⟨200, "", Json.obj []⟩)).2.2.1 "dQw4w9WgXcQ" 101 (Or.inr (by decide)),
   ((C5_invalid_inputs_rejected_before_network "k" (fun _ => .ok [])
      (fun _ => ⟨200, "", Json.obj []⟩)).2.2.2 " " 5 (Or.inr (by decide))).2⟩

/-- C7: whenever the `videos` endpoint returns a 200 response whose `items`
list is empty, the details tool fails with `"API Error: Video not found"`,
and so does the transcript tool's metadata step (after a successful
transcript step); neither returns a result. -/
theorem C7_empty_items_video_not_found (key : String)
    (http : OutboundRequest → HttpResponse) :
    (∀ request : VideoDetailsRequest,
      (http (videosSent key request.video_id)).status_code = 200 →
      (http (videosSent key request.video_id)).jsonBody.index "items" = .ok (.arr []) →
      (youtube_get_video_details key http request).1
        = .error "API Error: Video not found") ∧
    (∀ (request : TranscriptRequest) (frags : List Json) (transcript : String),
      buildTranscript frags = .ok transcript →
      (http (videosSent key request.video_id)).status_code = 200 →
      (http (videosSent key request.video_id)).jsonBody.index "items" = .ok (.arr []) →
      (get_youtube_transcript key (fun _ => .ok frags) http request).1
        = .error "API Error: Video not found") := by
  constructor
  · intro request h200 hitems
    simp only [videosSent] at h200 hitems
    simp [youtube_get_video_details, make_api_request, h200, hitems,
      Json.pyFalsy, wrapApiError, handle_api_error]
  · intro request frags transcript hbt h200 hitems
    simp only [videosSent] at h200 hitems
    simp [get_youtube_transcript, make_api_request, hbt, h200, hitems,
      Json.pyFalsy, wrapApiError, handle_api_error]

/-- C7 witness: a concrete empty-items 200 response on both tools. -/
theorem C7_empty_items_video_not_found_witness :
    ((youtube_get_video_details "k"
        (fun _ => ⟨200, "ok", Json.obj [("items", Json.arr [])]⟩)
        ⟨"dQw4w9WgXcQ"⟩).1 = .error "API Error: Video not found") ∧
    ((get_youtube_transcript "k" (fun _ => .ok [Json.obj [("text", Json.str "hi")]])
        (fun _ => ⟨200, "ok", Json.obj [("items", Json.arr [])]⟩)
        ⟨"dQw4w9WgXcQ"⟩).1 = .error "API Error: Video not found") :=
  ⟨(C7_empty_items_video_not_found "k"
      (fun _ => ⟨200, "ok", Json.obj [("items", Json.arr [])]⟩)).1
      ⟨"dQw4w9WgXcQ"⟩ rfl rfl,
   (C7_empty_items_video_not_found "k"
      (fun _ => ⟨200, "ok", Json.obj [("items", Json.arr [])]⟩)).2
      ⟨"dQw4w9WgXcQ"⟩ [Json.obj [("text", Json.str "hi")]] "hi" rfl rfl rfl⟩

/-- C9: on any successful video-details call, the output echoes the input
identifier in `video_id` (regardless of the response content), and takes
`title`, `description` and `published_at` verbatim from the first returned
item's snippet. -/
theorem C9_details_echoes_id_and_projects_snippet (key : String)
    (http : OutboundRequest → HttpResponse) (request : VideoDetailsRequest)
    (first : Json) (rest : List Json)
    (snippet title description published : Json)
    (h200 : (http (videosSent key request.video_id)).status_code = 200)
    (hitems : (http (videosSent key request.video_id)).jsonBody.index "items"
      = .ok (.arr (first :: rest)))
    (hsn : first.index "snippet" = .ok snippet)
    (ht : snippet.index "title" = .ok title)
    (hd : snippet.index "description" = .ok description)
    (hp : snippet.index "publishedAt" = .ok published) :
    (youtube_get_video_details key http request).1
      = .ok ⟨request.video_id, title, description, published⟩ := by
  simp only [videosSent] at h200 hitems
  simp [youtube_get_video_details, make_api_request, h200, hitems,
    Json.pyFalsy, Json.at0, hsn, ht, hd, hp, wrapApiError]

/-- C9 witness: a concrete snippet, echoed id differing from any id in the
response body. -/
theorem C9_details_echoes_id_and_projects_snippet_witness :
    (youtube_get_video_details "k"
      (fun _ => ⟨200, "ok", Json.obj [("items", Json.arr [Json.obj
        [("id", Json.str "otherId0000"),
         ("snippet", Json.obj [("title", Json.str "T"),
           ("description", Json.str "D"),
           ("publishedAt", Json.str "2020-01-01T00:00:00Z")])]])]⟩)
      ⟨"dQw4w9WgXcQ"⟩).1
    = .ok ⟨"dQw4w9WgXcQ", Json.str "T", Json.str "D",
        Json.str "2020-01-01T00:00:00Z"⟩ :=
  C9_details_echoes_id_and_projects_snippet "k"
    (fun _ => ⟨200, "ok", Json.obj [("items", Json.arr [Json.obj
      [("id", Json.str "otherId0000"),
       ("snippet", Json.obj [("title", Json.str "T"),
         ("description", Json.str "D"),
         ("publishedAt", Json.str "2020-01-01T00:00:00Z")])]])]⟩)
    ⟨"dQw4w9WgXcQ"⟩
    (Json.obj [("id", Json.str "otherId0000"),
      ("snippet", Json.obj [("title", Json.str "T"),
        ("description", Json.str "D"),
        ("publishedAt", Json.str "2020-01-01T00:00:00Z")])]) []
    (Json.obj [("title", Json.str "T"), ("description", Json.str "D"),
      ("publishedAt", Json.str "2020-01-01T00:00:00Z")])
    (Json.str "T") (Json.str "D") (Json.str "2020-01-01T00:00:00Z")
    rfl rfl rfl rfl rfl rfl

/-- C10: a 200 response whose JSON object has no `items` key makes the
search, channel-listing and comments tools succeed with an empty sequence
(they use `data.get('items', [])`), while the details tool and the
transcript tool's metadata step fail with the wrapped missing-key error
(they subscript `data['items']` directly). -/
theorem C10_absent_items_key_two_behaviours (key : String)
    (http : OutboundRequest → HttpResponse) :
    (∀ (request : SearchRequest) (kvs : List (String × Json)),
      (http (searchSent key request)).status_code = 200 →
      (http (searchSent key request)).jsonBody = .obj kvs →
      kvs.lookup "items" = none →
      (youtube_search_videos key http request).1 = .ok ⟨[]⟩
      ∧ (youtube_list_channel_videos key http request).1 = .ok ⟨[]⟩) ∧
    (∀ (request : CommentsRequest) (kvs : List (String × Json)),
      (http (commentsSent key request)).status_code = 200 →
      (http (commentsSent key request)).jsonBody = .obj kvs →
      kvs.lookup "items" = none →
      (youtube_get_comments key http request).1 = .ok ⟨[]⟩) ∧
    (∀ (request : VideoDetailsRequest) (kvs : List (String × Json)),
      (http (videosSent key request.video_id)).status_code = 200 →
      (http (videosSent key request.video_id)).jsonBody = .obj kvs →
      kvs.lookup "items" = none →
      (youtube_get_video_details key http request).1 = .error "API Error: 'items'") ∧
    (∀ (request : TranscriptRequest) (frags : List Json) (transcript : String)
        (kvs : List (String × Json)),
      buildTranscript frags = .ok transcript →
      (http (videosSent key request.video_id)).status_code = 200 →
      (http (videosSent key request.video_id)).jsonBody = .obj kvs →
      kvs.lookup "items" = none →
      (get_youtube_transcript key (fun _ => .ok frags) http request).1
        = .error "API Error: 'items'") := by
  refine ⟨?_, ?_, ?_, ?_⟩
  · intro request kvs h200 hobj hnone
    simp only [searchSent] at h200 hobj
    constructor
    · simp [youtube_search_videos, make_api_request, h200, hobj, hnone,
        Json.getD, Json.asList, projectSearchItems, wrapApiError]
    · simp [youtube_list_channel_videos, make_api_request, h200, hobj, hnone,
        Json.getD, Json.asList, projectSearchItems, wrapApiError]
  · intro request kvs h200 hobj hnone
    simp only [commentsSent] at h200 hobj
    simp [youtube_get_comments, make_api_request, h200, hobj, hnone,
      Json.getD, Json.asList, projectCommentItems, wrapApiError]
  · intro request kvs h200 hobj hnone
    simp only [videosSent] at h200 hobj
    simp [youtube_get_video_details, make_api_request, h200, hobj, hnone,
      Json.index, wrapApiError, handle_api_error]
  · intro request frags transcript kvs hbt h200 hobj hnone
    simp only [videosSent] at h200 hobj
    simp [get_youtube_transcript, make_api_request, hbt, h200, hobj, hnone,
      Json.index, wrapApiError, handle_api_error]

/-- C10 witness: a concrete `items`-less 200 body on all five tools. -/
theorem C10_absent_items_key_two_behaviours_witness :
    ((youtube_search_videos "k" (fun _ => ⟨200, "ok", Json.obj [("kind", Json.str "x")]⟩)
        ⟨"cats", 5⟩).1 = .ok ⟨[]⟩) ∧
    ((youtube_list_channel_videos "k" (fun _ => ⟨200, "ok", Json.obj [("kind", Json.str "x")]⟩)
        ⟨"cats", 5⟩).1 = .ok ⟨[]⟩) ∧
    ((youtube_get_comments "k" (fun _ => ⟨200, "ok", Json.obj [("kind", Json.str "x")]⟩)
        ⟨"dQw4w9WgXcQ", 20⟩).1 = .ok ⟨[]⟩) ∧
    ((youtube_get_video_details "k" (fun _ => ⟨200, "ok", Json.obj [("kind", Json.str "x")]⟩)
        ⟨"dQw4w9WgXcQ"⟩).1 = .error "API Error: 'items'") ∧
    ((get_youtube_transcript "k" (fun _ => .ok [Json.obj [("text", Json.str "hi")]])
        (fun _ => ⟨200, "ok", Json.obj [("kind", Json.str "x")]⟩)
        ⟨"dQw4w9WgXcQ"⟩).1 = .error "API Error: 'items'") :=
  ⟨((C10_absent_items_key_two_behaviours "k"
      (fun _ => ⟨200, "ok", Json.obj [("kind", Json.str "x")]⟩)).1
      ⟨"cats", 5⟩ [("kind", Json.str "x")] rfl rfl rfl).1,
   ((C10_absent_items_key_two_behaviours "k"
      (fun _ => ⟨200, "ok", Json.obj [("kind", Json.str "x")]⟩)).1
      ⟨"cats", 5⟩ [("kind", Json.str "x")] rfl rfl rfl).2,
   (C10_absent_items_key_two_behaviours "k"
      (fun _ => ⟨200, "ok", Json.obj [("kind", Json.str "x")]⟩)).2.1
      ⟨"dQw4w9WgXcQ", 20⟩ [("kind", Json.str "x")] rfl rfl rfl,
   (C10_absent_items_key_two_behaviours "k"
      (fun _ => ⟨200, "ok", Json.obj [("kind", Json.str "x")]⟩)).2.2.1
      ⟨"dQw4w9WgXcQ"⟩ [("kind", Json.str "x")] rfl rfl rfl,
   (C10_absent_items_key_two_behaviours "k"
      (fun _ => ⟨200, "ok", Json.obj [("kind", Json.str "x")]⟩)).2.2.2
      ⟨"dQw4w9WgXcQ"⟩ [Json.obj [("text", Json.str "hi")]] "hi"
      [("kind", Json.str "x")] rfl rfl rfl rfl⟩

/-- C4: whatever fragments the transcript collaborator returns, a successful
transcript-tool call outputs their `text` fields joined with single spaces in
the collaborator's order. -/
theorem C4_transcript_is_space_joined_fragments (key : String)
    (http : OutboundRequest → HttpResponse) (request : TranscriptRequest)
    (frags : List String) (out : TranscriptResponse)
    (h : (get_youtube_transcript key
        (fun _ => .ok (frags.map (fun t => Json.obj [("text", Json.str t)])))
        http request).1 = .ok out) :
    out.transcript = String.intercalate " " frags := by
  simp only [get_youtube_transcript, make_api_request,
    buildTranscript_fragments, wrapApiError] at h
  split at h
  · simp at h
  · simp only [Prod.fst] at h
    cases h
    rfl

/-- C4 witness: fragments `["Never", "gonna", "give"]` yield transcript
`"Never gonna give"` (alongside the mocked metadata). -/
theorem C4_transcript_is_space_joined_fragments_witness :
    ((get_youtube_transcript "k"
        (fun _ => .ok (["Never", "gonna", "give"].map
          (fun t => Json.obj [("text", Json.str t)])))
        (fun _ => ⟨200, "ok", Json.obj [("items", Json.arr [Json.obj
          [("snippet", Json.obj
            [("title", Json.str "Rick Astley - Never Gonna Give You Up"),
             ("description", Json.str "d")])]])]⟩)
        ⟨"dQw4w9WgXcQ"⟩).1
      = .ok ⟨"Never gonna give",
          Json.str "Rick Astley - Never Gonna Give You Up", Json.str "d"⟩) ∧
    (TranscriptResponse.transcript ⟨"Never gonna give",
        Json.str "Rick Astley - Never Gonna Give You Up", Json.str "d"⟩
      = String.intercalate " " ["Never", "gonna", "give"]) :=
  ⟨rfl,
   C4_transcript_is_space_joined_fragments "k"
    (fun _ => ⟨200, "ok", Json.obj [("items", Json.arr [Json.obj
      [("snippet", Json.obj
        [("title", Json.str "Rick Astley - Never Gonna Give You Up"),
         ("description", Json.str "d")])]])]⟩)
    ⟨"dQw4w9WgXcQ"⟩ ["Never", "gonna", "give"]
    ⟨"Never gonna give",
      Json.str "Rick Astley - Never Gonna Give You Up", Json.str "d"⟩ rfl⟩

/-- C2 counterexample: with a valid request limited to 1 result but a mocked
200 remote response carrying 2 items, the search tool succeeds and returns
both items — the output length exceeds the requested limit, so "length at
most the requested limit for every remote response" fails on the code. -/
theorem C2_counterexample :
    ((youtube_search_videos_run "k"
        (fun _ => ⟨200, "ok", Json.obj
          [("items", Json.arr [sampleSearchItem, sampleSearchItem])]⟩)
        "cats" 1).result
      = .ok ⟨[sampleSearchEntry, sampleSearchEntry]⟩) ∧
    ¬ ([sampleSearchEntry, sampleSearchEntry].length ≤ 1) :=
  ⟨rfl, by decide⟩

/-- C2 (amended): the requested limit is forwarded to the remote API as the
`maxResults` parameter but never enforced locally — on success the output
sequence has exactly as many entries as the remote response's `items` list,
whatever its relation to the limit. -/
theorem C2_output_length_equals_remote_items (key : String)
    (http : OutboundRequest → HttpResponse) (request : SearchRequest)
    (items : List Json) (out : SearchResponse)
    (hitems : (http (searchSent key request)).jsonBody.getD "items" (.arr [])
      = .ok (.arr items))
    (h : (youtube_search_videos key http request).1 = .ok out) :
    out.videos.length = items.length
    ∧ (youtube_search_videos key http request).2 = [searchSent key request] := by
  refine ⟨?_, rfl⟩
  simp only [searchSent] at hitems
  simp only [youtube_search_videos, make_api_request,
    List.cons_append, List.nil_append] at h
  split at h
  · simp [wrapApiError] at h
  · rename_i t heq
    split at heq
    · cases heq
    · cases heq
      rw [hitems] at h
      simp only [Json.asList] at h
      cases hp : projectSearchItems items with
      | error e => rw [hp] at h; simp [wrapApiError] at h
      | ok vs =>
        rw [hp] at h
        simp only [wrapApiError] at h
        cases h
        exact projectSearchItems_length hp

/-- C2 witness: two items returned against a limit of 5. -/
theorem C2_output_length_equals_remote_items_witness :
    ((⟨[sampleSearchEntry, sampleSearchEntry]⟩ : SearchResponse).videos.length
      = [sampleSearchItem, sampleSearchItem].length) ∧
    ((youtube_search_videos "k"
        (fun _ => ⟨200, "ok", Json.obj
          [("items", Json.arr [sampleSearchItem, sampleSearchItem])]⟩)
        ⟨"cats", 5⟩).2 = [searchSent "k" ⟨"cats", 5⟩]) :=
  C2_output_length_equals_remote_items "k"
    (fun _ => ⟨200, "ok", Json.obj
      [("items", Json.arr [sampleSearchItem, sampleSearchItem])]⟩)
    ⟨"cats", 5⟩ [sampleSearchItem, sampleSearchItem]
    ⟨[sampleSearchEntry, sampleSearchEntry]⟩ rfl rfl

end YoutubeMCP
